import Mathlib

/-!
Shallow embedding of the canvas marquee layout-and-animation engine
(src/components/MarqueeController.ts).

Pixel quantities are rationals.  DOM and canvas collaborators
(device pixel ratio, container width, text measurement, context
acquisition) are modelled as an explicit environment record; the
engine state mirrors the private fields of the MarqueeController
class.  The requestAnimationFrame handle is an abstract natural
number supplied by the caller of each operation that schedules a
frame.
-/

namespace Marquee

/-- MarqueeOptions from the source: the full configuration record.
backgroundColor is the one optional field of the interface. -/
structure MarqueeOptions where
  text : String
  font : String
  textColor : String
  reverse : Bool
  paddingX : ℚ
  paddingY : ℚ
  speed : ℚ
  backgroundColor : Option String
deriving DecidableEq

/-- A TypeScript partial configuration: every field may be absent.
Absent fields are modelled as none. -/
structure MarqueeOptionsUpdate where
  text : Option String := none
  font : Option String := none
  textColor : Option String := none
  reverse : Option Bool := none
  paddingX : Option ℚ := none
  paddingY : Option ℚ := none
  speed : Option ℚ := none
  backgroundColor : Option String := none
deriving DecidableEq

/-- The empty partial configuration, the literal {} of the source. -/
def emptyUpdate : MarqueeOptionsUpdate := {}

/-- JavaScript object spread { ...base, ...u }: fields present in u
overwrite the corresponding fields of base. -/
def mergeOptions (base : MarqueeOptions) (u : MarqueeOptionsUpdate) : MarqueeOptions where
  text := u.text.getD base.text
  font := u.font.getD base.font
  textColor := u.textColor.getD base.textColor
  reverse := u.reverse.getD base.reverse
  paddingX := u.paddingX.getD base.paddingX
  paddingY := u.paddingY.getD base.paddingY
  speed := u.speed.getD base.speed
  backgroundColor :=
    match u.backgroundColor with
    | some c => some c
    | none => base.backgroundColor

/-- getDefaultOptions of the source, field for field. -/
def getDefaultOptions : MarqueeOptions where
  text := "Default marquee text"
  font := "bold 5rem sans-serif"
  textColor := "rgba(202,39,39,0.7)"
  backgroundColor := some "transparent"
  reverse := false
  paddingX := 20
  paddingY := 36
  speed := 2

/-- TextInstance of the source: one positioned copy of the text. -/
structure TextInstance where
  x : ℚ
  width : ℚ
  index : ℕ
deriving DecidableEq

/-- The private fields of the MarqueeController class.  canvasWidth and
canvasHeight are the physical buffer dimensions (canvas.width and
canvas.height); hasContext and hasContainer record whether the context
and container references are non-null. -/
structure EngineState where
  options : MarqueeOptions
  ratio : ℚ
  instances : List TextInstance
  animationId : Option ℕ
  isInitialized : Bool
  hasContext : Bool
  hasContainer : Bool
  textWidth : ℚ
  textHeight : ℚ
  effectiveTextWidth : ℚ
  canvasWidth : ℚ
  canvasHeight : ℚ
deriving DecidableEq

/-- The constructor of MarqueeController: merges the partial options
over the defaults and leaves every other field at its initial value.
The initial physical canvas dimensions of the bound canvas element are
taken as parameters. -/
def mkController (canvasW canvasH : ℚ) (u : MarqueeOptionsUpdate) : EngineState where
  options := mergeOptions getDefaultOptions u
  ratio := 1
  instances := []
  animationId := none
  isInitialized := false
  hasContext := false
  hasContainer := false
  textWidth := 0
  textHeight := 0
  effectiveTextWidth := 0
  canvasWidth := canvasW
  canvasHeight := canvasH

/-- External collaborators of setupCanvas: device pixel ratio, the
resolved container content width, the two text measurement primitives
(the standalone measureText utility and context.measureText), and
whether getContext succeeds. -/
structure Env where
  pixelRatio : ℚ
  containerWidth : ℚ
  docMeasureHeight : String → String → ℚ
  ctxMeasureWidth : String → String → ℚ
  ctxMeasureAscentDescent : String → String → ℚ
  contextOk : Bool

/-- Math.ceil as a map from rationals to rationals. -/
def qceil (q : ℚ) : ℚ := ((⌈q⌉ : ℤ) : ℚ)

/-- setupCanvas of the source.  Reads the pixel ratio, resolves the
container, computes logical dimensions (logical height is
ceil(measured height) + paddingY), sets the physical canvas buffer to
the ceiling of logical times ratio, acquires the context and, on
success, runs setupFontMetrics: textWidth and textHeight are ceilings
of context measurements and effectiveTextWidth is textWidth + paddingX.
When getContext returns null the source throws after the dimension
assignments; the partially mutated state is returned alongside the
error. -/
def setupCanvas (env : Env) (st : EngineState) : EngineState × Except String Unit :=
  let o := st.options
  let logicalWidth := env.containerWidth
  let logicalHeight := qceil (env.docMeasureHeight o.text o.font) + o.paddingY
  let st1 : EngineState :=
    { st with
      ratio := env.pixelRatio
      hasContainer := true
      canvasWidth := qceil (logicalWidth * env.pixelRatio)
      canvasHeight := qceil (logicalHeight * env.pixelRatio) }
  if env.contextOk then
    let tw := qceil (env.ctxMeasureWidth o.text o.font)
    let th := qceil (env.ctxMeasureAscentDescent o.text o.font)
    ({ st1 with
        hasContext := true
        textWidth := tw
        textHeight := th
        effectiveTextWidth := tw + o.paddingX }, .ok ())
  else
    ({ st1 with hasContext := false }, .error "Could not get 2D context from canvas")

/-- Number of iterations of the instance-building for-loop of
setupTextInstances, following JavaScript float semantics for the
unguarded division: canvasWidth / 0 is Infinity when canvasWidth is
positive, so the loop guard i < Infinity never fails and the loop does
not terminate (modelled as none); 0 / 0 is NaN and a negative
canvasWidth over 0 is -Infinity, in both of which cases the guard
fails at once and the loop runs zero times. -/
def buildCount (canvasWidth eff : ℚ) : Option ℕ :=
  if eff = 0 then
    if 0 < canvasWidth then none else some 0
  else some ((⌈canvasWidth / eff⌉ + 4).toNat)

/-- The instance seeded at loop index i by setupTextInstances: for
reverse animation canvasWidth + i * effectiveTextWidth, otherwise
i * effectiveTextWidth - effectiveTextWidth. -/
def seedInstance (reverse : Bool) (canvasWidth eff textWidth : ℚ) (i : ℕ) : TextInstance :=
  if reverse then
    { x := canvasWidth + (i : ℚ) * eff, width := textWidth, index := i }
  else
    { x := (i : ℚ) * eff - eff, width := textWidth, index := i }

/-- The list built by the for-loop of setupTextInstances. -/
def buildInstances (reverse : Bool) (canvasWidth eff textWidth : ℚ) (n : ℕ) : List TextInstance :=
  (List.range n).map (seedInstance reverse canvasWidth eff textWidth)

/-- setupTextInstances of the source, parameterised by the quantities
it reads from the engine (canvasWidth here is canvas.width / ratio).
The none result encodes the non-terminating build loop. -/
def setupTextInstances (reverse : Bool) (canvasWidth eff textWidth : ℚ) :
    Option (List TextInstance) :=
  (buildCount canvasWidth eff).map (buildInstances reverse canvasWidth eff textWidth)

/-- Re-derives the instance collection of a state from its current
geometry, as the setupTextInstances method does. -/
def retile (st : EngineState) : Option EngineState :=
  (setupTextInstances st.options.reverse (st.canvasWidth / st.ratio)
      st.effectiveTextWidth st.textWidth).map
    (fun l => { st with instances := l })

/-- startAnimation: requests a frame only when no frame handle is held
(requestAnimationFrame handles are nonzero, so the falsiness test of
the source is a null test). -/
def startAnimation (fid : ℕ) (st : EngineState) : EngineState :=
  if st.animationId = none then { st with animationId := some fid } else st

/-- stopAnimation: cancels and clears the handle when one is held. -/
def stopAnimation (st : EngineState) : EngineState :=
  match st.animationId with
  | some _ => { st with animationId := none }
  | none => st

/-- destroy of the source: stop, clear instances, release the context
and container references, mark uninitialized. -/
def destroy (st : EngineState) : EngineState :=
  let s := stopAnimation st
  { s with instances := [], hasContext := false, isInitialized := false, hasContainer := false }

/-- initialize of the source: setupCanvas, setupTextInstances,
startAnimation, then the initialized flag.  A setup error is rethrown;
ok none encodes a diverging instance build. -/
def initEngine (env : Env) (fid : ℕ) (st : EngineState) :
    Except String (Option EngineState) :=
  match setupCanvas env st with
  | (_, .error e) => .error e
  | (st1, .ok _) =>
    match retile st1 with
    | none => .ok none
    | some st2 => .ok (some { startAnimation fid st2 with isInitialized := true })

/-- handleResize of the source: a guarded no-op before initialization,
otherwise stop, full re-setup and re-tile, restart. -/
def handleResize (env : Env) (fid : ℕ) (st : EngineState) :
    Except String (Option EngineState) :=
  if st.isInitialized = false then .ok (some st)
  else
    match setupCanvas env (stopAnimation st) with
    | (_, .error e) => .error e
    | (st1, .ok _) =>
      match retile st1 with
      | none => .ok none
      | some st2 => .ok (some (startAnimation fid st2))

/-- update of the source: always merges the new options over the
current ones; when initialized it re-runs setupCanvas and
setupTextInstances (a rejection of that chain is caught and logged,
leaving the partially mutated state).  The animation handle is never
touched.  none encodes a diverging instance build. -/
def updateCfg (env : Env) (u : MarqueeOptionsUpdate) (st : EngineState) :
    Option EngineState :=
  let st1 := { st with options := mergeOptions st.options u }
  if st1.isInitialized = true then
    match setupCanvas env st1 with
    | (st2, .ok _) => retile st2
    | (st2, .error _) => some st2
  else some st1

/-- The reduce of the forward recycle branch: scans the whole current
array for the smallest x, starting from instances[0] (first minimum
kept on ties, exactly as the strict comparison of the source does). -/
def jsReduceMinX (l : List TextInstance) : ℚ :=
  l.foldl (fun m inst => if inst.x < m then inst.x else m) ((l.headD ⟨0, 0, 0⟩).x)

/-- The reduce of the reverse recycle branch: scans the whole current
array for the largest x, starting from instances[0]. -/
def jsReduceMaxX (l : List TextInstance) : ℚ :=
  l.foldl (fun m inst => if m < inst.x then inst.x else m) ((l.headD ⟨0, 0, 0⟩).x)

/-- The body of the forEach of updatePositions for index i: move the
instance by the signed speed (mutating the array), then, when it has
crossed the recycle boundary, relocate it one effectiveTextWidth
beyond the extreme of the current (partially updated) array.  The
boundary tests use the textWidth field of the controller, not the
width stored in the instance. -/
def moveStep (reverse : Bool) (speed canvasWidth textWidth eff : ℚ)
    (arr : List TextInstance) (i : ℕ) : List TextInstance :=
  match arr[i]? with
  | none => arr
  | some inst =>
    if reverse then
      let moved := inst.x - speed
      let base := arr.set i { inst with x := moved }
      if moved + textWidth < 0 then
        base.set i { inst with x := jsReduceMaxX base + eff }
      else base
    else
      let moved := inst.x + speed
      let base := arr.set i { inst with x := moved }
      if moved > canvasWidth then
        base.set i { inst with x := jsReduceMinX base - eff }
      else base

/-- updatePositions of the source: the forEach over the instance array,
index order, mutations visible to later iterations. -/
def updatePositions (reverse : Bool) (speed canvasWidth textWidth eff : ℚ)
    (arr : List TextInstance) : List TextInstance :=
  (List.range arr.length).foldl (moveStep reverse speed canvasWidth textWidth eff) arr

/-- updatePositions acting on an engine state (canvasWidth of the
source is canvas.width / ratio). -/
def updatePositionsState (st : EngineState) : EngineState :=
  { st with
    instances := updatePositions st.options.reverse st.options.speed
      (st.canvasWidth / st.ratio) st.textWidth st.effectiveTextWidth st.instances }

/-- The visibility cull of draw: an instance is drawn exactly when
instance.x + textWidth > 0 and instance.x < canvasWidth. -/
def shouldDraw (canvasWidth textWidth : ℚ) (inst : TextInstance) : Prop :=
  0 < inst.x + textWidth ∧ inst.x < canvasWidth

instance (canvasWidth textWidth : ℚ) (inst : TextInstance) :
    Decidable (shouldDraw canvasWidth textWidth inst) :=
  inferInstanceAs (Decidable (_ ∧ _))

/-- The instances actually painted by draw: none when the context
reference is null (draw returns early), otherwise the culled list. -/
def drawnInstances (st : EngineState) : Option (List TextInstance) :=
  if st.hasContext then
    some (st.instances.filter
      (fun inst => decide (shouldDraw (st.canvasWidth / st.ratio) st.textWidth inst)))
  else none

/-- animate of the source: schedule the next frame first, then, unless
the canvas carries the external paused class, update positions and
draw.  The boolean result records whether update and draw ran. -/
def animate (paused : Bool) (fid : ℕ) (st : EngineState) : EngineState × Bool :=
  let st1 := { st with animationId := some fid }
  if paused then (st1, false)
  else (updatePositionsState st1, true)

/-- animate with the outcome of the external drawing primitives made
explicit.  The source contains no exception handler, so the outcome of
draw (when a context is present and drawing is attempted) is returned
unchanged; the frame scheduled at the top of the tick is kept in the
state either way. -/
def animateExc (paused : Bool) (fid : ℕ) (drawOutcome : Except Unit Unit)
    (st : EngineState) : EngineState × Except Unit Unit :=
  let st1 := { st with animationId := some fid }
  if paused then (st1, .ok ())
  else
    let st2 := updatePositionsState st1
    (st2, if st2.hasContext then drawOutcome else .ok ())

/-- Modelled from the spec: the position of the current leftmost
instance, the relocation reference of the forward recycling rule. -/
def specLeftmostX (l : List TextInstance) : ℚ :=
  ((l.map TextInstance.x).min?).getD 0

/-- Modelled from the spec: the position of the current rightmost
instance, the relocation reference of the reverse recycling rule. -/
def specRightmostX (l : List TextInstance) : ℚ :=
  ((l.map TextInstance.x).max?).getD 0

/-- Modelled from the spec: advance the instance at index i by the
signed speed; when its trailing edge has crossed the leading boundary,
relocate it to immediately follow the current extreme instance, offset
by exactly one effective tile width, the extreme being recomputed
fresh over the current collection. -/
def specMoveStep (reverse : Bool) (speed canvasWidth textWidth eff : ℚ)
    (arr : List TextInstance) (i : ℕ) : List TextInstance :=
  match arr[i]? with
  | none => arr
  | some inst =>
    if reverse then
      let moved := inst.x - speed
      let advanced := arr.set i { inst with x := moved }
      if moved + textWidth < 0 then
        advanced.set i { inst with x := specRightmostX advanced + eff }
      else advanced
    else
      let moved := inst.x + speed
      let advanced := arr.set i { inst with x := moved }
      if moved > canvasWidth then
        advanced.set i { inst with x := specLeftmostX advanced - eff }
      else advanced

/-- Modelled from the spec: one per-frame position update, instances
processed in array order. -/
def specUpdatePositions (reverse : Bool) (speed canvasWidth textWidth eff : ℚ)
    (arr : List TextInstance) : List TextInstance :=
  (List.range arr.length).foldl (specMoveStep reverse speed canvasWidth textWidth eff) arr

/-- Insertion into an ascending list of rationals. -/
def insertAsc (q : ℚ) : List ℚ → List ℚ
  | [] => [q]
  | a :: t => if q ≤ a then q :: a :: t else a :: insertAsc q t

/-- Insertion sort, ascending. -/
def sortAsc (l : List ℚ) : List ℚ := l.foldr insertAsc []

/-- All gaps between consecutive entries of the list equal eff. -/
def gapsAre (eff : ℚ) : List ℚ → Prop
  | [] => True
  | [_] => True
  | a :: b :: t => b - a = eff ∧ gapsAre eff (b :: t)

/-- Adjacent instance spacing (positions taken in ascending order) is
uniformly eff. -/
def spacingUniform (eff : ℚ) (l : List TextInstance) : Prop :=
  gapsAre eff (sortAsc (l.map TextInstance.x))

/-- A deterministic environment for the concrete scenarios: pixel
ratio 1, container content width 1000, every measurement returning
width 200 and height 50, context acquisition succeeding. -/
def env0 : Env where
  pixelRatio := 1
  containerWidth := 1000
  docMeasureHeight := fun _ _ => 50
  ctxMeasureWidth := fun _ _ => 200
  ctxMeasureAscentDescent := fun _ _ => 50
  contextOk := true

/-- An initialized engine in env0 under the default options, one frame
tick after initialization: the nine seeded instances have advanced by
the default speed 2, the three that started beyond the right boundary
having been recycled leftward on that tick. -/
def st0 : EngineState where
  options := getDefaultOptions
  ratio := 1
  instances :=
    [⟨-218, 200, 0⟩, ⟨2, 200, 1⟩, ⟨222, 200, 2⟩, ⟨442, 200, 3⟩, ⟨662, 200, 4⟩,
     ⟨882, 200, 5⟩, ⟨-438, 200, 6⟩, ⟨-658, 200, 7⟩, ⟨-878, 200, 8⟩]
  animationId := some 2
  isInitialized := true
  hasContext := true
  hasContainer := true
  textWidth := 200
  textHeight := 50
  effectiveTextWidth := 220
  canvasWidth := 1000
  canvasHeight := 86

/-- The state produced by update with the empty partial on st0: the
geometry is re-derived to the same values, but the instance collection
is rebuilt to the seed tiling. -/
def st1 : EngineState :=
  { st0 with
    instances :=
      [⟨-220, 200, 0⟩, ⟨0, 200, 1⟩, ⟨220, 200, 2⟩, ⟨440, 200, 3⟩, ⟨660, 200, 4⟩,
       ⟨880, 200, 5⟩, ⟨1100, 200, 6⟩, ⟨1320, 200, 7⟩, ⟨1540, 200, 8⟩] }

/-- One forward tick of the concrete recycling scenario: nine
instances, canvas width 1000, text width 200, tile width 220,
speed 100. -/
def fwdTick (l : List TextInstance) : List TextInstance :=
  updatePositions false 100 1000 200 220 l

/-! Helper lemmas shared by the claim theorems. -/

lemma hceil5 : (⌈(50:ℚ)/11⌉ : ℤ) = 5 := by
  rw [Int.ceil_eq_iff]
  norm_num

lemma buildCount_1000_220 : buildCount 1000 220 = some 9 := by
  rw [buildCount, if_neg (by norm_num : ¬((220:ℚ) = 0)),
    show ((1000:ℚ)/220) = 50/11 by norm_num, hceil5]
  rfl

lemma updateCfg_env0_st0 : updateCfg env0 emptyUpdate st0 = some st1 := by
  norm_num [updateCfg, mergeOptions, emptyUpdate, st0, st1, env0, setupCanvas, qceil,
    retile, setupTextInstances, buildCount_1000_220, buildInstances, seedInstance,
    List.range_succ, getDefaultOptions]

lemma foldl_min_aux (t : List TextInstance) (a : ℚ) :
    t.foldl (fun m inst => if inst.x < m then inst.x else m) a =
      (t.map TextInstance.x).foldl min a := by
  induction t generalizing a with
  | nil => rfl
  | cons h t ih =>
    simp only [List.foldl_cons, List.map_cons]
    rw [ih]
    congr 1
    rcases lt_or_le h.x a with hc | hc
    · rw [if_pos hc, min_eq_right hc.le]
    · rw [if_neg (not_lt.mpr hc), min_eq_left hc]

lemma foldl_max_aux (t : List TextInstance) (a : ℚ) :
    t.foldl (fun m inst => if m < inst.x then inst.x else m) a =
      (t.map TextInstance.x).foldl max a := by
  induction t generalizing a with
  | nil => rfl
  | cons h t ih =>
    simp only [List.foldl_cons, List.map_cons]
    rw [ih]
    congr 1
    rcases lt_or_le a h.x with hc | hc
    · rw [if_pos hc, max_eq_right hc.le]
    · rw [if_neg (not_lt.mpr hc), max_eq_left hc]

lemma jsReduceMinX_eq_spec (l : List TextInstance) (h : l ≠ []) :
    jsReduceMinX l = specLeftmostX l := by
  cases l with
  | nil => exact absurd rfl h
  | cons a t =>
    simp only [jsReduceMinX, specLeftmostX, List.headD_cons, List.foldl_cons, List.map_cons]
    rw [if_neg (lt_irrefl a.x), foldl_min_aux]
    simp [List.min?]

lemma jsReduceMaxX_eq_spec (l : List TextInstance) (h : l ≠ []) :
    jsReduceMaxX l = specRightmostX l := by
  cases l with
  | nil => exact absurd rfl h
  | cons a t =>
    simp only [jsReduceMaxX, specRightmostX, List.headD_cons, List.foldl_cons, List.map_cons]
    rw [if_neg (lt_irrefl a.x), foldl_max_aux]
    simp [List.max?]

lemma moveStep_eq_specMoveStep (rev : Bool) (speed cw tw eff : ℚ)
    (arr : List TextInstance) (i : ℕ) :
    moveStep rev speed cw tw eff arr i = specMoveStep rev speed cw tw eff arr i := by
  unfold moveStep specMoveStep
  cases harr : arr[i]? with
  | none => rfl
  | some inst =>
    have hne : arr ≠ [] := by
      rintro rfl
      simp at harr
    have hset : ∀ v : TextInstance, arr.set i v ≠ [] := by
      intro v hv
      apply hne
      have hlen := congrArg List.length hv
      rw [List.length_set] at hlen
      exact List.eq_nil_of_length_eq_zero hlen
    cases rev with
    | true =>
      simp only [eq_self_iff_true, if_true]
      by_cases hc : inst.x - speed + tw < 0
      · rw [if_pos hc, if_pos hc, jsReduceMaxX_eq_spec _ (hset _)]
      · rw [if_neg hc, if_neg hc]
    | false =>
      simp only [Bool.false_eq_true, if_false]
      by_cases hc : inst.x + speed > cw
      · rw [if_pos hc, if_pos hc, jsReduceMinX_eq_spec _ (hset _)]
      · rw [if_neg hc, if_neg hc]

lemma updatePositions_eq_spec (rev : Bool) (speed cw tw eff : ℚ)
    (arr : List TextInstance) :
    updatePositions rev speed cw tw eff arr = specUpdatePositions rev speed cw tw eff arr := by
  unfold updatePositions specUpdatePositions
  rw [show moveStep rev speed cw tw eff = specMoveStep rev speed cw tw eff from
    funext fun a => funext fun i => moveStep_eq_specMoveStep rev speed cw tw eff a i]

/-! The claim theorems. -/

/-- Claim C1, counterexample: on the initialized engine st0 (whose
instances have advanced one tick past their seeds), update with the
empty partial configuration does not leave the state unchanged — the
instance collection is rebuilt to the seed tiling. -/
theorem marquee_C1_cex : updateCfg env0 emptyUpdate st0 ≠ some st0 := by
  rw [updateCfg_env0_st0]
  intro h
  have h2 := congrArg (fun s => s.instances) (Option.some.inj h)
  norm_num [st1, st0] at h2

/-- Claim C1, amended: update with the empty partial configuration
leaves the configuration unchanged, but on an initialized engine it
re-runs surface setup and re-tiling, so the instance collection is
rebuilt to the seed tiling derived from the environment and the
configuration alone — previously advanced instance positions are not
preserved. -/
theorem marquee_C1_amended (env : Env) (st st' : EngineState)
    (hinit : st.isInitialized = true)
    (hupd : updateCfg env emptyUpdate st = some st') :
    st'.options = st.options ∧
    (env.contextOk = true →
      ∃ n, st'.instances = buildInstances st.options.reverse
          (qceil (env.containerWidth * env.pixelRatio) / env.pixelRatio)
          (qceil (env.ctxMeasureWidth st.options.text st.options.font) + st.options.paddingX)
          (qceil (env.ctxMeasureWidth st.options.text st.options.font)) n) := by
  have hmerge : mergeOptions st.options emptyUpdate = st.options := rfl
  cases hctx : env.contextOk with
  | true =>
    simp only [updateCfg, hmerge, hinit, eq_self_iff_true, if_true, setupCanvas, hctx,
      retile, setupTextInstances, Option.map_map] at hupd
    cases hbc : buildCount (qceil (env.containerWidth * env.pixelRatio) / env.pixelRatio)
        (qceil (env.ctxMeasureWidth st.options.text st.options.font) +
          st.options.paddingX) with
    | none =>
      rw [hbc] at hupd
      simp at hupd
    | some n =>
      rw [hbc] at hupd
      simp only [Option.map_some', Option.some.injEq] at hupd
      subst hupd
      exact ⟨rfl, fun _ => ⟨n, rfl⟩⟩
  | false =>
    simp only [updateCfg, hmerge, hinit, eq_self_iff_true, if_true, setupCanvas, hctx,
      Bool.false_eq_true, if_false, Option.some.injEq] at hupd
    subst hupd
    exact ⟨rfl, fun h => absurd h Bool.false_ne_true⟩

/-- Claim C1, witness: the amended theorem applied to the concrete
environment env0 and the concrete initialized state st0. -/
theorem marquee_C1_witness :
    st0.isInitialized = true ∧ updateCfg env0 emptyUpdate st0 = some st1 ∧
      st1.options = st0.options :=
  ⟨rfl, updateCfg_env0_st0,
    (marquee_C1_amended env0 st0 st1 rfl updateCfg_env0_st0).1⟩

/-- Claim C2, counterexample: the default paddingX of the constructor
is 20 pixels, not 0. -/
theorem marquee_C2_cex : (mkController 300 150 emptyUpdate).options.paddingX ≠ 0 := by
  norm_num [mkController, mergeOptions, emptyUpdate, getDefaultOptions]

/-- Claim C2, amended: constructing an engine with a partial
configuration that omits a field yields the documented defaults of the
source — paddingX 20 (not 0 as the spec states), paddingY 36, speed 2,
reverse false. -/
theorem marquee_C2_amended (cw ch : ℚ) (u : MarqueeOptionsUpdate) :
    (u.paddingX = none → (mkController cw ch u).options.paddingX = 20) ∧
    (u.paddingY = none → (mkController cw ch u).options.paddingY = 36) ∧
    (u.speed = none → (mkController cw ch u).options.speed = 2) ∧
    (u.reverse = none → (mkController cw ch u).options.reverse = false) := by
  refine ⟨fun h => ?_, fun h => ?_, fun h => ?_, fun h => ?_⟩ <;>
    simp [mkController, mergeOptions, getDefaultOptions, h]

/-- Claim C2, witness: the amended theorem applied to the empty partial
configuration. -/
theorem marquee_C2_witness :
    (mkController 300 150 emptyUpdate).options.paddingX = 20 ∧
    (mkController 300 150 emptyUpdate).options.paddingY = 36 ∧
    (mkController 300 150 emptyUpdate).options.speed = 2 ∧
    (mkController 300 150 emptyUpdate).options.reverse = false := by
  have h := marquee_C2_amended 300 150 emptyUpdate
  exact ⟨h.1 rfl, h.2.1 rfl, h.2.2.1 rfl, h.2.2.2 rfl⟩

/-- Claim C3, counterexample: a failing drawing primitive inside a tick
is not caught — on the concrete state st0 (context present, not
paused) the failure propagates out of the frame handler. -/
theorem marquee_C3_cex :
    (animateExc false 1 (.error ()) st0).2 = .error () := by
  simp [animateExc, updatePositionsState, st0]

/-- Claim C3, amended: the frame handler contains no exception
handler, so when a context is present the outcome of the drawing
primitives propagates out of the tick unchanged; the animation cycle
nevertheless stays alive because the next frame is scheduled at the
top of the tick, before the position update and the draw. -/
theorem marquee_C3_amended :
    (∀ (paused : Bool) (fid : ℕ) (r : Except Unit Unit) (st : EngineState),
        (animateExc paused fid r st).1.animationId = some fid) ∧
    (∀ (fid : ℕ) (r : Except Unit Unit) (st : EngineState),
        (animateExc false fid r st).2 = if st.hasContext then r else .ok ()) := by
  constructor
  · intro paused fid r st
    cases paused <;> simp [animateExc, updatePositionsState]
  · intro fid r st
    simp [animateExc, updatePositionsState]

/-- Claim C4, counterexample: adjacent instance spacing is not
invariant over elapsed time.  From the nine-instance forward seed
(canvas width 1000, text width 200, tile width 220) the spacing is
uniformly 220, but after two ticks at speed 100 a seam gap of
320 = 220 + 100 has appeared: a recycled instance is placed relative
to an extreme instance that has not yet moved on that tick. -/
theorem marquee_C4_cex :
    spacingUniform 220 (buildInstances false 1000 220 200 9) ∧
    ¬ spacingUniform 220 (fwdTick (fwdTick (buildInstances false 1000 220 200 9))) := by
  constructor
  · norm_num [spacingUniform, gapsAre, sortAsc, insertAsc, buildInstances, seedInstance,
      List.range_succ]
  · norm_num [spacingUniform, gapsAre, sortAsc, insertAsc, fwdTick, updatePositions,
      moveStep, jsReduceMinX, buildInstances, seedInstance, List.range_succ]

/-- Claim C4, amended: on every tick an instance is recycled exactly
when it has crossed the leading boundary, and it is relocated exactly
one effective tile width beyond the extreme of the current, partially
updated collection, the extreme recomputed fresh for each recycled
instance (the refinement of updatePositions by the spec-modelled
step); but because instances later in the array have not yet advanced
when the extreme is taken, adjacent spacing is not invariant: two
ticks at speed 100 from the forward seed leave a seam gap of
320 = 220 + 100 in the sorted positions. -/
theorem marquee_C4_amended :
    (∀ (rev : Bool) (speed cw tw eff : ℚ) (arr : List TextInstance),
        updatePositions rev speed cw tw eff arr =
          specUpdatePositions rev speed cw tw eff arr) ∧
    sortAsc ((fwdTick (fwdTick (buildInstances false 1000 220 200 9))).map
        TextInstance.x) =
      [-1000, -680, -460, -240, -20, 200, 420, 640, 860] := by
  constructor
  · exact updatePositions_eq_spec
  · norm_num [fwdTick, updatePositions, moveStep, buildInstances, seedInstance,
      jsReduceMinX, List.range_succ, sortAsc, insertAsc]

/-- Claim C5: with speed 5, forward motion, canvas width 1000 and an
instance at position 995 of width 200, one position update moves it to
exactly 1000; it is not recycled there (the recycle test is strictly
greater than the width), and it is not drawn there nor at any position
at or beyond the logical width, because the draw cull requires
position strictly less than the logical width. -/
theorem marquee_C5 :
    updatePositions false 5 1000 200 220 [⟨995, 200, 0⟩] = [⟨1000, 200, 0⟩] ∧
    ¬ shouldDraw 1000 200 ⟨1000, 200, 0⟩ ∧
    ∀ inst : TextInstance, 1000 ≤ inst.x → ¬ shouldDraw 1000 200 inst := by
  refine ⟨?_, ?_, fun inst h hd => absurd hd.2 (not_lt.mpr h)⟩
  · norm_num [updatePositions, moveStep, List.range_succ]
  · intro h
    exact absurd h.2 (by norm_num)

/-- Claim C5, witness: the universally quantified cull conjunct
applied at a concrete instance beyond the boundary. -/
theorem marquee_C5_witness : ¬ shouldDraw 1000 200 ⟨1500, 200, 3⟩ :=
  marquee_C5.2.2 ⟨1500, 200, 3⟩ (by norm_num)

/-- Claim C6: whenever the effective tile width is positive and the
canvas width nonnegative, the rebuilt instance collection has exactly
ceiling(canvas width / effective tile width) + 4 members. -/
theorem marquee_C6 (rev : Bool) (cw eff tw : ℚ) (h1 : 0 < eff) (h2 : 0 ≤ cw) :
    ∃ l, setupTextInstances rev cw eff tw = some l ∧
      l.length = (⌈cw / eff⌉).toNat + 4 := by
  refine ⟨buildInstances rev cw eff tw ((⌈cw / eff⌉ + 4).toNat), ?_, ?_⟩
  · rw [setupTextInstances, buildCount, if_neg (ne_of_gt h1)]
    rfl
  · rw [buildInstances, List.length_map, List.length_range]
    have h3 : 0 ≤ (⌈cw / eff⌉ : ℤ) := Int.ceil_nonneg (div_nonneg h2 h1.le)
    omega

/-- Claim C6, witness: canvas width 1000, measured text width 200 and
paddingX 20 give effective tile width 220 and exactly nine instances. -/
theorem marquee_C6_witness :
    (0:ℚ) < 220 ∧ ∃ l, setupTextInstances false 1000 220 200 = some l ∧
      l.length = 9 := by
  refine ⟨by norm_num, ?_⟩
  obtain ⟨l, hl, hlen⟩ := marquee_C6 false 1000 220 200 (by norm_num) (by norm_num)
  refine ⟨l, hl, ?_⟩
  rw [hlen, show ((1000:ℚ)/220) = 50/11 by norm_num, hceil5]
  rfl

/-- Claim C7: initial tiling seeds instance i at
canvasWidth + i * effectiveTileWidth when reverse is set (so the first
instance sits exactly at the right boundary), and at
(i - 1) * effectiveTileWidth otherwise (so the first instance sits one
full tile width left of the origin). -/
theorem marquee_C7 (rev : Bool) (cw eff tw : ℚ) (n i : ℕ) (h : i < n) :
    (buildInstances rev cw eff tw n)[i]? =
      some (if rev then (⟨cw + (i : ℚ) * eff, tw, i⟩ : TextInstance)
        else ⟨((i : ℚ) - 1) * eff, tw, i⟩) := by
  rw [buildInstances, List.getElem?_map, List.getElem?_range h]
  cases rev with
  | true => simp [seedInstance]
  | false =>
    simp only [Option.map_some', Option.some.injEq, seedInstance, Bool.false_eq_true,
      if_false, TextInstance.mk.injEq, and_true, true_and, eq_self_iff_true]
    ring

/-- Claim C7, witness: the seeding theorem applied at index 0 of the
nine-instance tiling for both directions — the reverse seed starts
exactly at the right boundary 1000, the forward seed one tile width
left of the origin. -/
theorem marquee_C7_witness :
    (buildInstances true 1000 220 200 9)[0]? = some ⟨1000, 200, 0⟩ ∧
    (buildInstances false 1000 220 200 9)[0]? = some ⟨-220, 200, 0⟩ := by
  constructor
  · rw [marquee_C7 true 1000 220 200 9 0 (by norm_num)]
    norm_num
  · rw [marquee_C7 false 1000 220 200 9 0 (by norm_num)]
    norm_num

/-- Claim C8: while the pause flag is set, a frame tick leaves every
instance position unchanged and performs no redraw, yet the next frame
is scheduled; when the flag is cleared, the following tick advances
exactly the frozen positions — it does not reset them. -/
theorem marquee_C8 :
    (∀ (st : EngineState) (fid : ℕ),
        animate true fid st = ({ st with animationId := some fid }, false)) ∧
    (∀ (st : EngineState) (fid fid2 : ℕ),
        ((animate false fid2 (animate true fid st).1).1).instances =
          updatePositions st.options.reverse st.options.speed (st.canvasWidth / st.ratio)
            st.textWidth st.effectiveTextWidth st.instances) := by
  constructor
  · intro st fid
    rfl
  · intro st fid fid2
    rfl

/-- Claim C9, counterexample: after destroy, invoking start is not a
no-op — it schedules an animation frame and changes the engine state. -/
theorem marquee_C9_cex :
    (startAnimation 1 (destroy st0)).animationId = some 1 ∧
      (destroy st0).animationId = none := by
  constructor <;> rfl

/-- Claim C9, amended: resize before initialization is a silent no-op;
update always merges the options (an observable configuration change)
and only skips the re-setup when uninitialized; start and stop are not
guarded by the initialization flag, so start before initialization or
after destroy schedules an animation frame whenever no handle is held;
destroy leaves an uninitialized state with no scheduled frame and no
instances. -/
theorem marquee_C9_amended :
    (∀ (env : Env) (fid : ℕ) (st : EngineState), st.isInitialized = false →
        handleResize env fid st = .ok (some st)) ∧
    (∀ (env : Env) (u : MarqueeOptionsUpdate) (st : EngineState),
        st.isInitialized = false →
        updateCfg env u st = some { st with options := mergeOptions st.options u }) ∧
    (∀ (fid : ℕ) (st : EngineState), st.animationId = none →
        startAnimation fid st = { st with animationId := some fid }) ∧
    (∀ st : EngineState, (destroy st).isInitialized = false ∧
        (destroy st).animationId = none ∧ (destroy st).instances = []) := by
  refine ⟨fun env fid st h => ?_, fun env u st h => ?_, fun fid st h => ?_, fun st => ?_⟩
  · simp [handleResize, h]
  · simp [updateCfg, h]
  · simp [startAnimation, h]
  · cases h2 : st.animationId <;> simp [destroy, stopAnimation, h2]

/-- Claim C9, witness: the amended theorem applied to a freshly
constructed (uninitialized) engine and to the destroyed state of st0. -/
theorem marquee_C9_witness :
    handleResize env0 3 (mkController 300 150 emptyUpdate) =
      .ok (some (mkController 300 150 emptyUpdate)) ∧
    startAnimation 5 (destroy st0) = { destroy st0 with animationId := some 5 } := by
  constructor
  · exact marquee_C9_amended.1 env0 3 _ rfl
  · exact marquee_C9_amended.2.2.1 5 _ ((marquee_C9_amended.2.2.2 st0).2.1)

/-- Claim C10: the instance rebuild yields a finite collection for
every strictly positive effective tile width, while a zero effective
tile width (text measuring zero wide with zero paddingX) on a canvas
of positive width makes the unguarded division produce an unbounded
count and the build loop does not terminate (the none result). -/
theorem marquee_C10 :
    (∀ (rev : Bool) (cw eff tw : ℚ), 0 < eff →
        ∃ l, setupTextInstances rev cw eff tw = some l) ∧
    (∀ (rev : Bool) (cw tw : ℚ), 0 < cw →
        setupTextInstances rev cw 0 tw = none) := by
  constructor
  · intro rev cw eff tw h
    exact ⟨_, by rw [setupTextInstances, buildCount, if_neg (ne_of_gt h)]; rfl⟩
  · intro rev cw tw h
    rw [setupTextInstances, buildCount, if_pos rfl, if_pos h]
    rfl

/-- Claim C10, witness: tile width 220 gives a finite build, tile
width 0 on the 1000 wide canvas a non-terminating one. -/
theorem marquee_C10_witness :
    (∃ l, setupTextInstances false 1000 220 200 = some l) ∧
    setupTextInstances false 1000 0 200 = none :=
  ⟨marquee_C10.1 false 1000 220 200 (by norm_num),
    marquee_C10.2 false 1000 200 (by norm_num)⟩

end Marquee
